import Mathlib

/-!
Verification of the mobile-AI backend-selection orchestrator and its engine
adapters, as a shallow embedding of the C++ sources:

- `Mock`   embeds `mobile_ai/tflite_gpu_service.cpp` (the mock/demo adapter).
- `Prod`   embeds `mobile_ai/tflite_gpu_service_prod_headers.cpp` (the
  production adapter, parameterised over an opaque engine, matching the
  treatment of the TFLite runtime as an external collaborator).
- `Bridge` embeds `jni/mobile_ai_jni_bridge.cpp` (the orchestrator), with both
  `TFLITE_GPU_AVAILABLE` and `ONNX_MOBILE_AVAILABLE` blocks compiled in.

C++ `std::string` values are byte strings; they are embedded as `List Char`
(one `Char` per byte).  C++ `float` arithmetic on scores is embedded over `ℚ`:
every score literal in the sources (0.4, 0.7, 0.03, ...) is exactly
representable, and the claims under study concern comparisons and clamping,
not rounding.  Randomness (`std::mt19937` draws) is embedded by passing the
drawn value as an explicit argument, bounded exactly as the distribution that
produced it.  Logging macros are side-effect free for every claim and are
dropped.  C++ member functions become functions `State → ...`; a function
that does not return an updated state performs no mutation in the source.
-/

/-- Byte string of a literal, as a list of characters. -/
def str (s : String) : List Char := s.data

/-- Decimal digits of a natural number, most significant first. -/
def natChars (n : Nat) : List Char := Nat.toDigits 10 n

/-- Decimal rendering of an integer (sign followed by digits). -/
def intChars (n : Int) : List Char :=
  (if n < 0 then str "-" else []) ++ natChars n.natAbs

/-- Fixed-point rendering with `d` fractional digits, rounding to nearest,
mirroring `std::fixed << std::setprecision(d)` on the exactly representable
scores that reach it in the sources. -/
def fixedDigits (d : Nat) (q : ℚ) : List Char :=
  let scale : ℚ := ((10 ^ d : Nat) : ℚ)
  let n : Int := Int.floor (q * scale + 1/2)
  let m : Nat := n.natAbs
  let ip : Nat := m / 10 ^ d
  let fp : Nat := m % 10 ^ d
  let fpDigits := natChars fp
  (if n < 0 then str "-" else []) ++ natChars ip ++ str "." ++
    List.replicate (d - fpDigits.length) '0' ++ fpDigits

namespace Mock

/-- The Android asset store as seen by `tflite_gpu_service.cpp`: whether
`AAssetManager_open` succeeds for a name, and whether `AAsset_read` then
returns the complete file. -/
structure Assets where
  present : List Char → Bool
  readOk : List Char → Bool

/-- Fields of `TFLiteGPUService` (mock build: `interpreter_`, `model_` and
`gpu_delegate_` are raw pointers, observed only for null-ness, so they are
embedded as `Bool` = "non-null").  The raw byte buffer `model_buffer_` is
written but never read by any modelled operation and is omitted. -/
structure State where
  initialized_ : Bool
  model_loaded_ : Bool
  model_path_ : List Char
  interpreter_ : Bool
  model_ : Bool
  gpu_delegate_ : Bool
  asset_manager_ : Bool
deriving DecidableEq

/-- `TFLiteGPUService::TFLiteGPUService()`: all flags clear, all pointers null. -/
def newService : State :=
  { initialized_ := false, model_loaded_ := false, model_path_ := []
    interpreter_ := false, model_ := false, gpu_delegate_ := false
    asset_manager_ := false }

/-- `TFLiteGPUService::loadModelFromAssets` (mock): open the asset named
`model_path_`, read it fully, then install the mock model pointer and set
`model_loaded_`. -/
def loadModelFromAssets (a : Assets) (s : State) : Bool × State :=
  if s.asset_manager_ = false then (false, s)
  else if a.present s.model_path_ = false then (false, s)
  else if a.readOk s.model_path_ = false then (false, s)
  else (true, { s with model_ := true, model_loaded_ := true })

/-- `TFLiteGPUService::loadModelFromFile` (mock): unconditionally installs the
mock model pointer `0x12345678` and sets `model_loaded_`. -/
def loadModelFromFile (s : State) : Bool × State :=
  (true, { s with model_ := true, model_loaded_ := true })

/-- `TFLiteGPUService::loadModel`: dispatch on whether an asset manager was
attached. -/
def loadModel (a : Assets) (s : State) : Bool × State :=
  if s.asset_manager_ then loadModelFromAssets a s else loadModelFromFile s

/-- `TFLiteGPUService::initializeGPUDelegate` (mock): `mock_gpu_success` is
hard-coded `true`, so the mock delegate pointer is always installed. -/
def initializeGPUDelegate (s : State) : Bool × State :=
  (true, { s with gpu_delegate_ := true })

/-- `TFLiteGPUService::buildInterpreter` (mock): fails only when no model is
loaded; otherwise installs the mock interpreter pointer. -/
def buildInterpreter (s : State) : Bool × State :=
  if s.model_ = false then (false, s)
  else (true, { s with interpreter_ := true })

/-- `TFLiteGPUService::tokenizeInput` (mock): BOS token 1, one token per
printable-ASCII byte, EOS token 2, then `resize(512)` (truncate or pad with
zeros). -/
def tokenizeInput (input : List Char) : List Int :=
  let tokens : List Int :=
    [1] ++ (input.filter fun c => decide (32 ≤ c.toNat) && decide (c.toNat ≤ 126)).map
      (fun c => (c.toNat : Int)) ++ [2]
  if 512 < tokens.length then tokens.take 512
  else tokens ++ List.replicate (512 - tokens.length) 0

/-- `TFLiteGPUService::setInputTensor` (mock): false when the interpreter
pointer is null, otherwise true; the token buffer is not inspected. -/
def setInputTensor (s : State) (_tokens : List Int) : Bool :=
  s.interpreter_

/-- `TFLiteGPUService::isGPUAvailable` (mock): returns true when the delegate
pointer is non-null; otherwise `mock_gpu_available` is hard-coded `true`
(simulated Adreno 750 detection) and is returned.  The source mutates nothing,
hence the `State → Bool` type. -/
def isGPUAvailable (s : State) : Bool :=
  if s.gpu_delegate_ then true
  else
    let mock_gpu_available := true
    mock_gpu_available

/-- `TFLiteGPUService::getPerformanceScore` (mock): 0 when uninitialized, else
a base of 0.7 (delegate attached) or 0.4 (CPU) plus a drawn `variation`, the
sum clamped to `[0, 1]`.  The source draws `variation` from
`uniform_real_distribution(-0.03, 0.03)`; it is passed here explicitly. -/
def getPerformanceScore (s : State) (variation : ℚ) : ℚ :=
  if s.initialized_ = false then 0
  else
    let base_score : ℚ := if s.gpu_delegate_ then 7/10 else 4/10
    let score := base_score + variation
    min 1 (max 0 score)

/-- `TFLiteGPUService::generateFallbackResponse` (mock): the labeled
diagnostic string built line by line exactly as in the source; `substr(0,100)`
is `take 100` on the byte string. -/
def generateFallbackResponse (s : State) (variation : ℚ) (input : List Char) :
    List Char :=
  str "TensorFlow Lite GPU Mock Response:\n" ++
  str "Input: " ++ input.take 100 ++
  (if 100 < input.length then str "..." else []) ++
  str "\n" ++
  str "Processing: GPU-accelerated inference simulation\n" ++
  str "Backend: Adreno 750 GPU (simulated)\n" ++
  str "Model: Mobile-optimized language model (mock)\n" ++
  str "Performance: ~" ++
  (if s.gpu_delegate_ then str "200-500ms" else str "500-1000ms") ++
  str " response time\n" ++
  str "Status: Architecture ready for actual model integration\n" ++
  str "GPU Available: " ++ (if isGPUAvailable s then str "Yes" else str "No") ++
  str "\n" ++
  str "Performance Score: " ++
  fixedDigits 1 (getPerformanceScore s variation * 100) ++ str "%"

/-- The four response templates of `TFLiteGPUService::decodeOutput` (mock). -/
def response_templates : List (List Char) :=
  [str "I understand your query and here\x27s my analysis: ",
   str "Based on the input, I can provide the following response: ",
   str "Thank you for your question. My processed response is: ",
   str "After analyzing your input, here\x27s what I can tell you: "]

/-- The five continuations of `TFLiteGPUService::decodeOutput` (mock). -/
def continuations : List (List Char) :=
  [str "The information you provided is interesting and relevant.",
   str "I\x27ve processed this through the mobile AI inference engine.",
   str "This demonstrates successful TensorFlow Lite GPU acceleration.",
   str "The response time shows optimal mobile performance.",
   str "The neural network has generated this contextual output."]

/-- `TFLiteGPUService::decodeOutput` (mock): null-interpreter guard, then a
random template and continuation plus a backend tag.  The two
`uniform_int_distribution` draws are passed as `ti`, `ci`, reduced into the
ranges of the two distributions. -/
def decodeOutput (s : State) (ti ci : Nat) : List Char :=
  if s.interpreter_ = false then str "Error: No interpreter"
  else
    response_templates.getD (ti % response_templates.length) [] ++
    continuations.getD (ci % continuations.length) [] ++
    str " [TensorFlow Lite " ++ (if s.gpu_delegate_ then str "GPU" else str "CPU") ++
    str " - Adreno 750 optimized]"

/-- `TFLiteGPUService::processInference` (mock).  The modelled inference path
performs no mutation in the source (tokenize, null-checks, sleep, decode), so
only the returned string is produced.  The `catch` branch is unreachable in
the embedding: every branch is a total function. -/
def processInference (s : State) (variation : ℚ) (ti ci : Nat)
    (input : List Char) : List Char :=
  if s.initialized_ = false then str "Error: Service not initialized"
  else if s.model_loaded_ = false then generateFallbackResponse s variation input
  else
    let input_tokens := tokenizeInput input
    if setInputTensor s input_tokens = false then
      str "Error: Failed to set input tensor"
    else decodeOutput s ti ci

/-- `TFLiteGPUService::warmUpModel` (mock): runs one inference whose result is
discarded; no field is written, so the state is unchanged. -/
def warmUpModel (s : State) : State := s

/-- `TFLiteGPUService::initialize` (mock; `initialize` is a reserved word in
Lean, hence the name): load the model (fatal on failure), create the GPU
delegate (failure merely logged), build the interpreter (fatal on failure),
warm up, then set `initialized_`. -/
def initializePath (a : Assets) (s : State) (model_path : List Char) :
    Bool × State :=
  let s := { s with model_path_ := model_path }
  let r1 := loadModel a s
  if r1.1 = false then (false, r1.2)
  else
    let r2 := initializeGPUDelegate r1.2
    let r3 := buildInterpreter r2.2
    if r3.1 = false then (false, r3.2)
    else
      let s := warmUpModel r3.2
      (true, { s with initialized_ := true })

/-- `TFLiteGPUService::initializeFallbackMode`: marks the service initialized
with no model loaded, installs the mock delegate pointer `0x99999999`, and
returns true. -/
def initializeFallbackMode (s : State) : Bool × State :=
  (true, { s with initialized_ := true, model_loaded_ := false,
                  gpu_delegate_ := true })

/-- The fixed candidate list of `TFLiteGPUService::initializeWithAssets`. -/
def model_candidates : List (List Char) :=
  [str "models/phi3_mini_mobile.tflite",
   str "models/distilbert_mobile.tflite",
   str "models/text_generator_mobile.tflite",
   str "models/gemma_270m_mobile.tflite",
   str "models/test_model.tflite"]

/-- The candidate loop of `TFLiteGPUService::initializeWithAssets`: for each
candidate that opens in the asset store, attempt `initialize`; return true on
the first success; after the list is exhausted, enter fallback mode. -/
def initializeWithAssetsGo (a : Assets) :
    List (List Char) → State → Bool × State
  | [], s => initializeFallbackMode s
  | c :: rest, s =>
      if a.present c then
        let r := initializePath a s c
        if r.1 then (true, r.2) else initializeWithAssetsGo a rest r.2
      else initializeWithAssetsGo a rest s

/-- `TFLiteGPUService::initializeWithAssets` (mock): record the asset manager,
then run the candidate loop over the fixed list. -/
def initializeWithAssets (a : Assets) (s : State) : Bool × State :=
  initializeWithAssetsGo a model_candidates { s with asset_manager_ := true }

/-- `TFLiteGPUService::cleanup` (mock): when initialized, null out the
interpreter, delegate and model pointers and clear both flags; otherwise do
nothing. -/
def cleanup (s : State) : State :=
  if s.initialized_ then
    let s := if s.interpreter_ then { s with interpreter_ := false } else s
    let s := if s.gpu_delegate_ then { s with gpu_delegate_ := false } else s
    let s := if s.model_ then { s with model_ := false } else s
    { s with initialized_ := false, model_loaded_ := false }
  else s

end Mock

namespace Prod2

/-- Fields of `TFLiteGPUService` in the production build
(`tflite_gpu_service_prod_headers.cpp`); smart pointers and the raw delegate
pointer are observed only for null-ness and embedded as `Bool`; the raw byte
buffer is written but never read by a modelled operation and is omitted. -/
structure State where
  initialized_ : Bool
  model_loaded_ : Bool
  model_path_ : List Char
  interpreter_ : Bool
  model_ : Bool
  gpu_delegate_ : Bool
deriving DecidableEq

/-- The TFLite runtime as an opaque engine (spec section 6): each primitive
reports whether the corresponding call succeeds.  `modifyGraphOk` is the
outcome of `ModifyGraphWithDelegate`. -/
structure Engine where
  buildFromFile : List Char → Bool
  createDelegateOk : Bool
  builderOk : Bool
  modifyGraphOk : Bool
  allocateOk : Bool

/-- Fresh production service: all flags clear, all handles null. -/
def newService : State :=
  { initialized_ := false, model_loaded_ := false, model_path_ := []
    interpreter_ := false, model_ := false, gpu_delegate_ := false }

/-- `TFLiteGPUService::loadModelFromFile` (production): `model_` receives the
result of `FlatBufferModel::BuildFromFile`; null is fatal, otherwise
`model_loaded_` is set. -/
def loadModelFromFile (e : Engine) (s : State) : Bool × State :=
  if e.buildFromFile s.model_path_ = false then (false, { s with model_ := false })
  else (true, { s with model_ := true, model_loaded_ := true })

/-- `TFLiteGPUService::initializeGPUDelegate` (production): `gpu_delegate_`
receives the result of `TfLiteGpuDelegateV2Create`; null is reported as
failure. -/
def initializeGPUDelegate (e : Engine) (s : State) : Bool × State :=
  if e.createDelegateOk then (true, { s with gpu_delegate_ := true })
  else (false, { s with gpu_delegate_ := false })

/-- `TFLiteGPUService::buildInterpreter` (production): fatal when the model is
absent, when `InterpreterBuilder` fails or yields null, or when
`AllocateTensors` fails; a `ModifyGraphWithDelegate` failure is only logged
(CPU fallback).  The input-resize heuristic and `SetNumThreads` touch only
interpreter-internal data and have no modelled field. -/
def buildInterpreter (e : Engine) (s : State) : Bool × State :=
  if s.model_ = false then (false, s)
  else if e.builderOk = false then (false, s)
  else
    let s := { s with interpreter_ := true }
    if e.allocateOk = false then (false, s)
    else (true, s)

/-- `TFLiteGPUService::initialize` (production; `initialize` is a reserved
word in Lean, hence the name): early-return true when already initialized;
otherwise load the model (fatal on failure), create the GPU delegate (failure
only logged), build the interpreter (fatal on failure), warm up (result
discarded, no field written), then set `initialized_`. -/
def initializePath (e : Engine) (s : State) (model_path : List Char) :
    Bool × State :=
  if s.initialized_ then (true, s)
  else
    let s := { s with model_path_ := model_path }
    let r1 := loadModelFromFile e s
    if r1.1 = false then (false, r1.2)
    else
      let r2 := initializeGPUDelegate e r1.2
      let r3 := buildInterpreter e r2.2
      if r3.1 = false then (false, r3.2)
      else (true, { r3.2 with initialized_ := true })

/-- `TfLiteType` of the first output tensor, as observed by `decodeOutput`. -/
inductive TensorType where
  | f32 : TensorType
  | i32 : TensorType
  | other : Int → TensorType
deriving DecidableEq

/-- The first output tensor as read back from the interpreter: its element
type, its dims array, and its buffer viewed as floats (`bytes / 4` elements)
or as int32 values.  Scores are embedded over `ℚ`. -/
structure OutputTensor where
  ttype : TensorType
  dims : List Int
  dataF : List ℚ
  dataI : List Int

/-- The arg-max scan of `TFLiteGPUService::decodeOutput`: starting from a
current best index and score, advance left to right and update only on a
strictly greater score (`data[i] > best_score`). -/
def argmaxLoop : List ℚ → Nat → Nat → ℚ → Nat × ℚ
  | [], _, best, best_score => (best, best_score)
  | x :: rest, i, best, best_score =>
      if best_score < x then argmaxLoop rest (i + 1) i x
      else argmaxLoop rest (i + 1) best best_score

/-- Arg-max over a buffer as in the source: best = 0, best score = element 0,
then scan from index 1.  The source never runs this on an empty buffer; the
`[]` case is a junk value. -/
def argmax : List ℚ → Nat × ℚ
  | [] => (0, 0)
  | x :: rest => argmaxLoop rest 1 0 x

/-- The flat float branch of `decodeOutput`: arg-max over all elements. -/
def flatDecode (t : OutputTensor) : List Char :=
  let r := argmax t.dataF
  str "TensorFlow Lite response (token " ++ natChars r.1 ++
    str ", score: " ++ fixedDigits 3 r.2 ++ str ")"

/-- The int32 branch of `decodeOutput`: the first up-to-10 values in the open
interval (0, 128) rendered as ASCII characters. -/
def asciiDecode (l : List Int) : List Char :=
  ((l.take 10).filter fun n => decide (0 < n) && decide (n < 128)).map
    (fun n => Char.ofNat n.toNat)

/-- `TFLiteGPUService::decodeOutput` (production), given the output tensor
read from the interpreter (the null-interpreter / missing-tensor guards of the
source return `"Error: ..."` strings and are modelled by the `none` case).
For a rank-3 float tensor `[b, t, v]` with `b ≥ 1`, `t ≥ 1`, `v > 0`, the
score row at the last sequence position is scanned; otherwise the float
buffer is scanned flat; int32 output is rendered as ASCII; any other type
yields the unsupported-type diagnostic. -/
def decodeOutput (t? : Option OutputTensor) : List Char :=
  match t? with
  | none => str "Error: No output tensors"
  | some t =>
    match t.ttype with
    | TensorType.f32 =>
        match t.dims with
        | [b, tt, v] =>
            if 1 ≤ b ∧ 1 ≤ tt ∧ 0 < v then
              let offset : Nat := ((tt - 1) * v).toNat
              let logits := (t.dataF.drop offset).take v.toNat
              let r := argmax logits
              str "TensorFlow Lite response (next token " ++ natChars r.1 ++
                str ", score: " ++ fixedDigits 3 r.2 ++ str ")"
            else flatDecode t
        | _ => flatDecode t
    | TensorType.i32 =>
        str "TensorFlow Lite response: " ++ asciiDecode t.dataI
    | TensorType.other code =>
        str "TensorFlow Lite response (unsupported output type: " ++
          intChars code ++ str ")"

end Prod2

namespace Bridge

/-- The global state of `mobile_ai_jni_bridge.cpp`: the two service
`unique_ptr`s (observed by the bridge only for null-ness — the internal
adapter state is modelled in `Mock`/`Prod2`), the `is_initialized` flag and
the `active_backend` string. -/
structure State where
  tflite_service : Bool
  onnx_service : Bool
  is_initialized : Bool
  active_backend : List Char
deriving DecidableEq

/-- Process start: both service pointers null, `is_initialized = false`,
`active_backend = "none"`. -/
def initialState : State :=
  { tflite_service := false, onnx_service := false, is_initialized := false
    active_backend := str "none" }

/-- The adapters as the bridge observes them during `initializeNative`: the
boolean results of `TFLiteGPUService::initialize(path)`,
`ONNXMobileService::initialize(path)` and
`ONNXMobileService::isNNAPIAvailable()`. -/
structure AdapterOracles where
  tfliteInit : List Char → Bool
  onnxInit : List Char → Bool
  nnapi : Bool

/-- Result of `initializeNative` plus one instrumentation bit:
`onnxAttempted` records whether control entered the ONNX fallback block
(`if (!success) { ... }`). -/
structure InitOutcome where
  success : Bool
  state : State
  onnxAttempted : Bool
deriving DecidableEq

/-- `Java_..._MobileAIService_initializeNative`, with both backend blocks
compiled in: construct a fresh TFLite service and try it first; on success set
`active_backend = "tflite_gpu"`; on failure reset the service and, only then,
construct the ONNX service, which is kept exactly when its `initialize` and
`isNNAPIAvailable` both succeed; finally set `is_initialized` iff some
backend succeeded. -/
def initializeNative (s : State) (o : AdapterOracles) (path : List Char) :
    InitOutcome :=
  let s1 : State := { s with tflite_service := true }
  let p1 : Bool × State :=
    if o.tfliteInit path then
      (true, { s1 with active_backend := str "tflite_gpu" })
    else
      (false, { s1 with tflite_service := false })
  let onnxAttempted := !p1.1
  let p2 : Bool × State :=
    if p1.1 = false then
      let s2 : State := { p1.2 with onnx_service := true }
      if o.onnxInit path && o.nnapi then
        (true, { s2 with active_backend := str "onnx_mobile" })
      else
        (false, { s2 with onnx_service := false })
    else p1
  let s3 := if p2.1 then { p2.2 with is_initialized := true } else p2.2
  { success := p2.1, state := s3, onnxAttempted := onnxAttempted }

/-- `Java_..._MobileAIService_processInferenceNative`: uninitialized guard,
then route to whichever service matches `active_backend` and is non-null
(`tfliteResult`/`onnxResult` are the strings those calls return), then
substitute the fixed sentinel for an empty result. -/
def processInferenceNative (s : State) (tfliteResult onnxResult : List Char)
    (_input : List Char) : List Char :=
  if s.is_initialized = false then str "Error: Service not initialized"
  else
    let result : List Char := []
    let result :=
      if s.active_backend = str "tflite_gpu" ∧ s.tflite_service = true then
        tfliteResult
      else result
    let result :=
      if s.active_backend = str "onnx_mobile" ∧ s.onnx_service = true then
        onnxResult
      else result
    if result = [] then str "Error: No active backend available" else result

/-- `Java_..._MobileAIService_cleanupNative`: for each non-null service, call
its `cleanup` and destroy it (the state of a destroyed object is unobservable
from the bridge); then clear `is_initialized` and reset `active_backend` to
`"none"`. -/
def cleanupNative (s : State) : State :=
  let s1 := if s.tflite_service then { s with tflite_service := false } else s
  let s2 := if s1.onnx_service then { s1 with onnx_service := false } else s1
  { s2 with is_initialized := false, active_backend := str "none" }

end Bridge

/-!
Theorems.  Helper lemmas come first; each claim of the specification is then
settled by a single theorem (plus witness or counterexample where required).
-/

/-- One-step unfolding of the arg-max scan on a non-empty buffer. -/
theorem argmaxLoop_cons (x : ℚ) (rest : List ℚ) (i b : Nat) (s : ℚ) :
    Prod2.argmaxLoop (x :: rest) i b s =
      if s < x then Prod2.argmaxLoop rest (i + 1) i x
      else Prod2.argmaxLoop rest (i + 1) b s := rfl

/-- Invariant proof for the arg-max scan: if the carried best index and score
describe the first maximum of the already scanned prefix, the loop result
describes the first maximum of the whole buffer. -/
theorem argmaxLoopSpec (l : List ℚ) :
    ∀ (pre : List ℚ) (b : Nat) (s : ℚ),
      b < pre.length → pre.getD b 0 = s →
      (∀ j, j < pre.length → pre.getD j 0 ≤ s) →
      (∀ j, j < b → pre.getD j 0 < s) →
      (Prod2.argmaxLoop l pre.length b s).1 < (pre ++ l).length ∧
      (pre ++ l).getD (Prod2.argmaxLoop l pre.length b s).1 0 =
        (Prod2.argmaxLoop l pre.length b s).2 ∧
      (∀ j, j < (pre ++ l).length →
        (pre ++ l).getD j 0 ≤ (Prod2.argmaxLoop l pre.length b s).2) ∧
      (∀ j, j < (Prod2.argmaxLoop l pre.length b s).1 →
        (pre ++ l).getD j 0 < (Prod2.argmaxLoop l pre.length b s).2) := by
  induction l with
  | nil =>
    intro pre b s hb hbs hmax hfirst
    simp only [Prod2.argmaxLoop, List.append_nil]
    exact ⟨hb, hbs, hmax, hfirst⟩
  | cons x rest ih =>
    intro pre b s hb hbs hmax hfirst
    have hlen : (pre ++ [x]).length = pre.length + 1 := by simp
    have hgetx : (pre ++ [x]).getD pre.length 0 = x := by
      rw [List.getD_append_right pre [x] 0 pre.length (le_refl _)]
      simp
    have hget_lt : ∀ j, j < pre.length → (pre ++ [x]).getD j 0 = pre.getD j 0 := by
      intro j hj
      exact List.getD_append pre [x] 0 j hj
    have happ : (pre ++ [x]) ++ rest = pre ++ x :: rest := by simp
    by_cases hx : s < x
    · have h1 : pre.length < (pre ++ [x]).length := by omega
      have h3 : ∀ j, j < (pre ++ [x]).length → (pre ++ [x]).getD j 0 ≤ x := by
        intro j hj
        rcases Nat.lt_or_ge j pre.length with hj' | hj'
        · rw [hget_lt j hj']
          exact le_of_lt (lt_of_le_of_lt (hmax j hj') hx)
        · have hje : j = pre.length := by omega
          rw [hje, hgetx]
      have h4 : ∀ j, j < pre.length → (pre ++ [x]).getD j 0 < x := by
        intro j hj
        rw [hget_lt j hj]
        exact lt_of_le_of_lt (hmax j hj) hx
      have hres := ih (pre ++ [x]) pre.length x h1 hgetx h3 h4
      rw [hlen, happ] at hres
      rw [argmaxLoop_cons, if_pos hx]
      exact hres
    · have hxle : x ≤ s := le_of_not_lt hx
      have hb' : b < (pre ++ [x]).length := by omega
      have hbs' : (pre ++ [x]).getD b 0 = s := by
        rw [hget_lt b hb]
        exact hbs
      have h3 : ∀ j, j < (pre ++ [x]).length → (pre ++ [x]).getD j 0 ≤ s := by
        intro j hj
        rcases Nat.lt_or_ge j pre.length with hj' | hj'
        · rw [hget_lt j hj']
          exact hmax j hj'
        · have hje : j = pre.length := by omega
          rw [hje, hgetx]
          exact hxle
      have h4 : ∀ j, j < b → (pre ++ [x]).getD j 0 < s := by
        intro j hj
        rw [hget_lt j (lt_trans hj hb)]
        exact hfirst j hj
      have hres := ih (pre ++ [x]) b s hb' hbs' h3 h4
      rw [hlen, happ] at hres
      rw [argmaxLoop_cons, if_neg hx]
      exact hres

/-- First-maximum characterisation of the arg-max scan on a non-empty buffer:
the returned index holds the returned score, every element is at most that
score, and every element strictly before the returned index is strictly below
it. -/
theorem argmaxSpec (x : ℚ) (rest : List ℚ) :
    (Prod2.argmax (x :: rest)).1 < (x :: rest).length ∧
    (x :: rest).getD (Prod2.argmax (x :: rest)).1 0 = (Prod2.argmax (x :: rest)).2 ∧
    (∀ j, j < (x :: rest).length →
      (x :: rest).getD j 0 ≤ (Prod2.argmax (x :: rest)).2) ∧
    (∀ j, j < (Prod2.argmax (x :: rest)).1 →
      (x :: rest).getD j 0 < (Prod2.argmax (x :: rest)).2) := by
  have hres := argmaxLoopSpec rest [x] 0 x (by simp) (by simp)
    (by
      intro j hj
      simp only [List.length_cons, List.length_nil] at hj
      have hje : j = 0 := by omega
      subst hje
      simp)
    (by
      intro j hj
      exact absurd hj (Nat.not_lt_zero j))
  simpa [Prod2.argmax] using hres

/-- C8: output decoding selects the arg-max by a stable left-to-right scan
with strictly-greater comparisons only, so the first occurrence of the maximum
wins; in particular for the score vector `[0.1, 0.9, 0.9, 0.2]` index 1 is
selected, not index 2, both in the rank-3 last-position branch and in the flat
float branch of `decodeOutput`. -/
theorem claim_C8_argmax_first_max :
    (∀ (x : ℚ) (rest : List ℚ),
      (Prod2.argmax (x :: rest)).1 < (x :: rest).length ∧
      (x :: rest).getD (Prod2.argmax (x :: rest)).1 0 = (Prod2.argmax (x :: rest)).2 ∧
      (∀ j, j < (x :: rest).length →
        (x :: rest).getD j 0 ≤ (Prod2.argmax (x :: rest)).2) ∧
      (∀ j, j < (Prod2.argmax (x :: rest)).1 →
        (x :: rest).getD j 0 < (Prod2.argmax (x :: rest)).2)) ∧
    Prod2.argmax [1/10, 9/10, 9/10, 2/10] = (1, 9/10) ∧
    Prod2.decodeOutput (some
      { ttype := Prod2.TensorType.f32
        dims := [1, 1, 4]
        dataF := [1/10, 9/10, 9/10, 2/10]
        dataI := [] }) =
      str "TensorFlow Lite response (next token 1, score: 0.900)" ∧
    Prod2.decodeOutput (some
      { ttype := Prod2.TensorType.f32
        dims := [4]
        dataF := [1/10, 9/10, 9/10, 2/10]
        dataI := [] }) =
      str "TensorFlow Lite response (token 1, score: 0.900)" := by
  have hmax : Prod2.argmax [(1 : ℚ)/10, 9/10, 9/10, 1/5] = (1, 9/10) := by
    simp only [Prod2.argmax, Prod2.argmaxLoop]
    norm_num
  have hnat : natChars 1 = str "1" := by decide
  have hfix : fixedDigits 3 ((9 : ℚ)/10) = str "0.900" := by
    have h2 : Int.floor ((9 : ℚ)/10 * ((10 ^ 3 : Nat) : ℚ) + 1/2) = 900 := by
      push_cast
      norm_num [Int.floor_eq_iff]
    simp only [fixedDigits, h2]
    decide
  refine ⟨argmaxSpec, ?_, ?_, ?_⟩
  · simp only [Prod2.argmax, Prod2.argmaxLoop]
    norm_num
  · simp only [Prod2.decodeOutput]
    norm_num [List.take, hmax, hnat, hfix]
    decide
  · simp only [Prod2.decodeOutput, Prod2.flatDecode]
    norm_num [hmax, hnat, hfix]
    decide

/-- Witness for C8: the first-maximum theorem evaluated on a concrete score
buffer, discharging the index-bound hypotheses there. -/
theorem claim_C8_argmax_first_max_witness :
    (Prod2.argmax [(1 : ℚ), 2]).1 < ([(1 : ℚ), 2]).length ∧
    ([(1 : ℚ), 2]).getD 0 0 < (Prod2.argmax [(1 : ℚ), 2]).2 :=
  ⟨(claim_C8_argmax_first_max.1 1 [2]).1,
   (claim_C8_argmax_first_max.1 1 [2]).2.2.2 0 (by decide)⟩

/-- Candidate-loop exhaustion: when every candidate either fails to open or
fails to read completely, the loop of `initializeWithAssets` reaches fallback
mode: it returns true with `initialized_` set, `model_loaded_` clear and the
mock delegate pointer installed. -/
theorem initializeWithAssetsGoAllFail (a : Mock.Assets) :
    ∀ (cands : List (List Char)) (s : Mock.State),
      s.asset_manager_ = true →
      (∀ c ∈ cands, a.present c = false ∨ a.readOk c = false) →
      (Mock.initializeWithAssetsGo a cands s).1 = true ∧
      (Mock.initializeWithAssetsGo a cands s).2.initialized_ = true ∧
      (Mock.initializeWithAssetsGo a cands s).2.model_loaded_ = false ∧
      (Mock.initializeWithAssetsGo a cands s).2.gpu_delegate_ = true := by
  intro cands
  induction cands with
  | nil =>
    intro s _ _
    simp [Mock.initializeWithAssetsGo, Mock.initializeFallbackMode]
  | cons c rest ih =>
    intro s hm hall
    have hc := hall c (List.mem_cons_self c rest)
    have hrest : ∀ d ∈ rest, a.present d = false ∨ a.readOk d = false :=
      fun d hd => hall d (List.mem_cons_of_mem c hd)
    by_cases hp : a.present c = true
    · have hr : a.readOk c = false := by
        rcases hc with h | h
        · rw [hp] at h
          exact absurd h (by simp)
        · exact h
      have hinit : Mock.initializePath a s c = (false, { s with model_path_ := c }) := by
        simp [Mock.initializePath, Mock.loadModel, Mock.loadModelFromAssets, hm, hp, hr]
      simp only [Mock.initializeWithAssetsGo, hp, if_true, hinit]
      exact ih { s with model_path_ := c } (by simp [hm]) hrest
    · simp only [Mock.initializeWithAssetsGo, hp, if_false, Bool.false_eq_true]
      exact ih s hm hrest

/-- C3: for every candidate asset list, when no candidate both exists in the
asset store and fully initializes, `initializeWithAssets` returns true (not
false) and leaves the adapter in fallback mode: `initialized_` set,
`model_loaded_` clear.  Stated for the loop over an arbitrary candidate list
and for the entry point with its fixed candidate list. -/
theorem claim_C3_asset_exhaustion_fallback (a : Mock.Assets)
    (cands : List (List Char)) (s : Mock.State)
    (hm : s.asset_manager_ = true)
    (hall : ∀ c ∈ cands, a.present c = false ∨ a.readOk c = false)
    (hfixed : ∀ c ∈ Mock.model_candidates, a.present c = false ∨ a.readOk c = false) :
    ((Mock.initializeWithAssetsGo a cands s).1 = true ∧
     (Mock.initializeWithAssetsGo a cands s).2.initialized_ = true ∧
     (Mock.initializeWithAssetsGo a cands s).2.model_loaded_ = false) ∧
    ((Mock.initializeWithAssets a s).1 = true ∧
     (Mock.initializeWithAssets a s).2.initialized_ = true ∧
     (Mock.initializeWithAssets a s).2.model_loaded_ = false) := by
  have h1 := initializeWithAssetsGoAllFail a cands s hm hall
  have h2 := initializeWithAssetsGoAllFail a Mock.model_candidates
    { s with asset_manager_ := true } (by simp) hfixed
  exact ⟨⟨h1.1, h1.2.1, h1.2.2.1⟩, ⟨h2.1, h2.2.1, h2.2.2.1⟩⟩

/-- Witness for C3: an asset store with no assets at all, a one-element
candidate list, and a fresh service with the asset manager attached. -/
theorem claim_C3_witness :
    ((Mock.initializeWithAssetsGo ⟨fun _ => false, fun _ => false⟩ [str "m"]
        { Mock.newService with asset_manager_ := true }).1 = true ∧
     (Mock.initializeWithAssetsGo ⟨fun _ => false, fun _ => false⟩ [str "m"]
        { Mock.newService with asset_manager_ := true }).2.initialized_ = true ∧
     (Mock.initializeWithAssetsGo ⟨fun _ => false, fun _ => false⟩ [str "m"]
        { Mock.newService with asset_manager_ := true }).2.model_loaded_ = false) ∧
    ((Mock.initializeWithAssets ⟨fun _ => false, fun _ => false⟩
        { Mock.newService with asset_manager_ := true }).1 = true ∧
     (Mock.initializeWithAssets ⟨fun _ => false, fun _ => false⟩
        { Mock.newService with asset_manager_ := true }).2.initialized_ = true ∧
     (Mock.initializeWithAssets ⟨fun _ => false, fun _ => false⟩
        { Mock.newService with asset_manager_ := true }).2.model_loaded_ = false) :=
  claim_C3_asset_exhaustion_fallback ⟨fun _ => false, fun _ => false⟩ [str "m"]
    { Mock.newService with asset_manager_ := true } rfl
    (fun _ _ => Or.inl rfl) (fun _ _ => Or.inl rfl)

/-- C10: after `initializeWithAssets` exhausts its candidate list and enters
fallback mode, the adapter holds a non-null mock GPU delegate although no
model was loaded; hence `isGPUAvailable` returns true and the performance
score is computed from the GPU base value 0.7, landing in `[0.67, 0.73]` for
any variation the distribution can draw. -/
theorem claim_C10_fallback_reports_gpu (a : Mock.Assets) (s : Mock.State) (v : ℚ)
    (hall : ∀ c ∈ Mock.model_candidates, a.present c = false)
    (hv1 : -(3/100) ≤ v) (hv2 : v ≤ 3/100) :
    (Mock.initializeWithAssets a s).2.gpu_delegate_ = true ∧
    (Mock.initializeWithAssets a s).2.model_loaded_ = false ∧
    (Mock.initializeWithAssets a s).2.initialized_ = true ∧
    Mock.isGPUAvailable (Mock.initializeWithAssets a s).2 = true ∧
    67/100 ≤ Mock.getPerformanceScore (Mock.initializeWithAssets a s).2 v ∧
    Mock.getPerformanceScore (Mock.initializeWithAssets a s).2 v ≤ 73/100 := by
  have h := initializeWithAssetsGoAllFail a Mock.model_candidates
    { s with asset_manager_ := true } (by simp) (fun c hc => Or.inl (hall c hc))
  have hgpu : (Mock.initializeWithAssets a s).2.gpu_delegate_ = true := h.2.2.2
  have hinit : (Mock.initializeWithAssets a s).2.initialized_ = true := h.2.1
  have hs : Mock.getPerformanceScore (Mock.initializeWithAssets a s).2 v =
      min 1 (max 0 (7/10 + v)) := by
    simp [Mock.getPerformanceScore, hinit, hgpu]
  have h0 : (0 : ℚ) ≤ 7/10 + v := by linarith
  have h1 : (7 : ℚ)/10 + v ≤ 1 := by linarith
  refine ⟨hgpu, h.2.2.1, hinit, ?_, ?_, ?_⟩
  · simp [Mock.isGPUAvailable]
  · rw [hs, max_eq_right h0, min_eq_right h1]
    linarith
  · rw [hs, max_eq_right h0, min_eq_right h1]
    linarith

/-- Witness for C10: the empty asset store, a fresh service, and a zero
variation draw. -/
theorem claim_C10_witness :
    (Mock.initializeWithAssets ⟨fun _ => false, fun _ => false⟩ Mock.newService).2.gpu_delegate_ = true ∧
    (Mock.initializeWithAssets ⟨fun _ => false, fun _ => false⟩ Mock.newService).2.model_loaded_ = false ∧
    (Mock.initializeWithAssets ⟨fun _ => false, fun _ => false⟩ Mock.newService).2.initialized_ = true ∧
    Mock.isGPUAvailable (Mock.initializeWithAssets ⟨fun _ => false, fun _ => false⟩ Mock.newService).2 = true ∧
    67/100 ≤ Mock.getPerformanceScore (Mock.initializeWithAssets ⟨fun _ => false, fun _ => false⟩ Mock.newService).2 0 ∧
    Mock.getPerformanceScore (Mock.initializeWithAssets ⟨fun _ => false, fun _ => false⟩ Mock.newService).2 0 ≤ 73/100 :=
  claim_C10_fallback_reports_gpu ⟨fun _ => false, fun _ => false⟩ Mock.newService 0
    (fun _ _ => rfl) (by norm_num) (by norm_num)

/-- Counterexample for C4: for the freshly constructed service, whose GPU
delegate pointer is null, `isGPUAvailable` returns true, refuting the claim
that it returns false when no delegate is attached (the simulated hardware
detection branch of the mock returns true unconditionally). -/
theorem claim_C4_counterexample :
    Mock.newService.gpu_delegate_ = false ∧
    Mock.isGPUAvailable Mock.newService = true :=
  ⟨rfl, rfl⟩

/-- C4 (amended): `isGPUAvailable` is a pure query — the source mutates no
field, which the embedding records by its `State → Bool` type — and it returns
true whenever the delegate pointer is non-null; but when no delegate is
attached the simulated hardware-detection branch also returns true, so the
query returns true for every state rather than reflecting delegate
attachment. -/
theorem claim_C4_gpu_available_amended (s : Mock.State) :
    Mock.isGPUAvailable s = true := by
  by_cases h : s.gpu_delegate_ = true <;> simp [Mock.isGPUAvailable, h]

/-- C5: in fallback mode (`initialized_` set, `model_loaded_` clear) and for
every input string and variation draw, `processInference` returns a non-empty
diagnostic string that names an excerpt of the input, the simulated backend,
and the performance score; the function is total, so no exception can
escape. -/
theorem claim_C5_degraded_mode_never_fails (s : Mock.State) (v : ℚ) (ti ci : Nat)
    (input : List Char)
    (h1 : s.initialized_ = true) (h2 : s.model_loaded_ = false) :
    Mock.processInference s v ti ci input ≠ [] ∧
    (∃ p q, Mock.processInference s v ti ci input =
      p ++ (str "Input: " ++ input.take 100) ++ q) ∧
    (∃ p q, Mock.processInference s v ti ci input =
      p ++ str "Backend: Adreno 750 GPU (simulated)\n" ++ q) ∧
    (∃ p q, Mock.processInference s v ti ci input =
      p ++ (str "Performance Score: " ++
        fixedDigits 1 (Mock.getPerformanceScore s v * 100) ++ str "%") ++ q) := by
  have hpi : Mock.processInference s v ti ci input =
      Mock.generateFallbackResponse s v input := by
    simp [Mock.processInference, h1, h2]
  rw [hpi]
  unfold Mock.generateFallbackResponse
  refine ⟨?_, ?_, ?_, ?_⟩
  · exact List.append_ne_nil_of_right_ne_nil _ (by decide)
  · exact ⟨str "TensorFlow Lite GPU Mock Response:\n",
      (if 100 < input.length then str "..." else []) ++
      str "\n" ++
      str "Processing: GPU-accelerated inference simulation\n" ++
      str "Backend: Adreno 750 GPU (simulated)\n" ++
      str "Model: Mobile-optimized language model (mock)\n" ++
      str "Performance: ~" ++
      (if s.gpu_delegate_ then str "200-500ms" else str "500-1000ms") ++
      str " response time\n" ++
      str "Status: Architecture ready for actual model integration\n" ++
      str "GPU Available: " ++ (if Mock.isGPUAvailable s then str "Yes" else str "No") ++
      str "\n" ++
      str "Performance Score: " ++
      fixedDigits 1 (Mock.getPerformanceScore s v * 100) ++ str "%",
      by simp [List.append_assoc]⟩
  · exact ⟨str "TensorFlow Lite GPU Mock Response:\n" ++
      str "Input: " ++ input.take 100 ++
      (if 100 < input.length then str "..." else []) ++
      str "\n" ++
      str "Processing: GPU-accelerated inference simulation\n",
      str "Model: Mobile-optimized language model (mock)\n" ++
      str "Performance: ~" ++
      (if s.gpu_delegate_ then str "200-500ms" else str "500-1000ms") ++
      str " response time\n" ++
      str "Status: Architecture ready for actual model integration\n" ++
      str "GPU Available: " ++ (if Mock.isGPUAvailable s then str "Yes" else str "No") ++
      str "\n" ++
      str "Performance Score: " ++
      fixedDigits 1 (Mock.getPerformanceScore s v * 100) ++ str "%",
      by simp [List.append_assoc]⟩
  · exact ⟨str "TensorFlow Lite GPU Mock Response:\n" ++
      str "Input: " ++ input.take 100 ++
      (if 100 < input.length then str "..." else []) ++
      str "\n" ++
      str "Processing: GPU-accelerated inference simulation\n" ++
      str "Backend: Adreno 750 GPU (simulated)\n" ++
      str "Model: Mobile-optimized language model (mock)\n" ++
      str "Performance: ~" ++
      (if s.gpu_delegate_ then str "200-500ms" else str "500-1000ms") ++
      str " response time\n" ++
      str "Status: Architecture ready for actual model integration\n" ++
      str "GPU Available: " ++ (if Mock.isGPUAvailable s then str "Yes" else str "No") ++
      str "\n",
      [],
      by simp [List.append_assoc]⟩

/-- Witness for C5: the fallback-mode state produced by
`initializeFallbackMode` on a fresh service, a zero variation draw, and a
short concrete input. -/
theorem claim_C5_witness :
    Mock.processInference (Mock.initializeFallbackMode Mock.newService).2 0 0 0 (str "hi") ≠ [] ∧
    (∃ p q, Mock.processInference (Mock.initializeFallbackMode Mock.newService).2 0 0 0 (str "hi") =
      p ++ (str "Input: " ++ (str "hi").take 100) ++ q) ∧
    (∃ p q, Mock.processInference (Mock.initializeFallbackMode Mock.newService).2 0 0 0 (str "hi") =
      p ++ str "Backend: Adreno 750 GPU (simulated)\n" ++ q) ∧
    (∃ p q, Mock.processInference (Mock.initializeFallbackMode Mock.newService).2 0 0 0 (str "hi") =
      p ++ (str "Performance Score: " ++
        fixedDigits 1 (Mock.getPerformanceScore (Mock.initializeFallbackMode Mock.newService).2 0 * 100) ++
        str "%") ++ q) :=
  claim_C5_degraded_mode_never_fails (Mock.initializeFallbackMode Mock.newService).2
    0 0 0 (str "hi") rfl rfl

/-- C7: on a not-yet-initialized adapter, `initialize(path)` returns false
exactly when model loading fails or interpreter building fails (builder or
tensor allocation); a failed delegate creation alone never makes it return
false — with the model loaded and the interpreter built, initialization
succeeds even when `createDelegateOk` is false.  The embedding is total, so
no branch throws.  The final conjunct states the same shape for the mock
adapter loading through the asset store, whose only failure mode is the model
load. -/
theorem claim_C7_initialize_failure_modes (e : Prod2.Engine) (s : Prod2.State)
    (path : List Char) (h : s.initialized_ = false) :
    ((Prod2.initializePath e s path).1 = false ↔
      (e.buildFromFile path = false ∨ e.builderOk = false ∨ e.allocateOk = false)) ∧
    (e.createDelegateOk = false → e.buildFromFile path = true → e.builderOk = true →
      e.allocateOk = true → (Prod2.initializePath e s path).1 = true) ∧
    (∀ (a : Mock.Assets) (ms : Mock.State) (mpath : List Char),
      ms.asset_manager_ = true →
      ((Mock.initializePath a ms mpath).1 = false ↔
        (a.present mpath = false ∨ a.readOk mpath = false))) := by
  refine ⟨?_, ?_, ?_⟩
  · by_cases hb : e.buildFromFile path = true <;>
      by_cases hd : e.createDelegateOk = true <;>
      by_cases hbu : e.builderOk = true <;>
      by_cases ha : e.allocateOk = true <;>
      simp [Prod2.initializePath, Prod2.loadModelFromFile, Prod2.initializeGPUDelegate,
        Prod2.buildInterpreter, h, hb, hd, hbu, ha]
  · intro hd hb hbu ha
    simp [Prod2.initializePath, Prod2.loadModelFromFile, Prod2.initializeGPUDelegate,
      Prod2.buildInterpreter, h, hb, hd, hbu, ha]
  · intro a ms mpath hm
    by_cases hp : a.present mpath = true <;>
      by_cases hr : a.readOk mpath = true <;>
      simp [Mock.initializePath, Mock.loadModel, Mock.loadModelFromAssets,
        Mock.buildInterpreter, Mock.initializeGPUDelegate, Mock.warmUpModel, hm, hp, hr]

/-- Witness for C7: a concrete engine whose delegate creation fails while
every other primitive succeeds still initializes a fresh service. -/
theorem claim_C7_witness :
    (Prod2.initializePath
      { buildFromFile := fun _ => true, createDelegateOk := false,
        builderOk := true, modifyGraphOk := true, allocateOk := true }
      Prod2.newService (str "model.tflite")).1 = true :=
  (claim_C7_initialize_failure_modes
      { buildFromFile := fun _ => true, createDelegateOk := false,
        builderOk := true, modifyGraphOk := true, allocateOk := true }
      Prod2.newService (str "model.tflite") rfl).2.1 rfl rfl rfl rfl

/-- Normal form of `cleanupNative`: whatever the prior state, it leaves both
services destroyed, `is_initialized` false, and `active_backend = "none"`. -/
theorem cleanupNative_eq (s : Bridge.State) :
    Bridge.cleanupNative s =
      { tflite_service := false, onnx_service := false, is_initialized := false,
        active_backend := str "none" } := by
  cases s with
  | mk t o i a =>
    by_cases ht : t = true <;> by_cases ho : o = true <;>
      simp [Bridge.cleanupNative, ht, ho]

/-- C1: with both engine adapters compiled in, if the TFLite adapter would
initialize successfully then `initializeNative` activates the TFLite GPU
backend and never the ONNX fallback, and the fallback block is not entered;
moreover the fallback block is entered exactly when the GPU adapter returned
false. -/
theorem claim_C1_priority_order (s : Bridge.State) (o : Bridge.AdapterOracles)
    (path : List Char) :
    (o.tfliteInit path = true →
      (Bridge.initializeNative s o path).success = true ∧
      (Bridge.initializeNative s o path).state.active_backend = str "tflite_gpu" ∧
      (Bridge.initializeNative s o path).state.active_backend ≠ str "onnx_mobile" ∧
      (Bridge.initializeNative s o path).onnxAttempted = false) ∧
    ((Bridge.initializeNative s o path).onnxAttempted = true ↔
      o.tfliteInit path = false) := by
  constructor
  · intro h
    refine ⟨?_, ?_, ?_, ?_⟩ <;> simp [Bridge.initializeNative, h]
    decide
  · by_cases h : o.tfliteInit path = true <;> simp [Bridge.initializeNative, h]

/-- Witness for C1: both adapters able to succeed, starting from the initial
bridge state. -/
theorem claim_C1_witness :
    (Bridge.initializeNative Bridge.initialState
      { tfliteInit := fun _ => true, onnxInit := fun _ => true, nnapi := true }
      (str "m")).success = true ∧
    (Bridge.initializeNative Bridge.initialState
      { tfliteInit := fun _ => true, onnxInit := fun _ => true, nnapi := true }
      (str "m")).state.active_backend = str "tflite_gpu" ∧
    (Bridge.initializeNative Bridge.initialState
      { tfliteInit := fun _ => true, onnxInit := fun _ => true, nnapi := true }
      (str "m")).state.active_backend ≠ str "onnx_mobile" ∧
    (Bridge.initializeNative Bridge.initialState
      { tfliteInit := fun _ => true, onnxInit := fun _ => true, nnapi := true }
      (str "m")).onnxAttempted = false :=
  (claim_C1_priority_order Bridge.initialState
    { tfliteInit := fun _ => true, onnxInit := fun _ => true, nnapi := true }
    (str "m")).1 rfl

/-- C2: when the GPU adapter fails, the fallback is activated iff the ONNX
adapter initializes and its NNAPI capability check passes; when both
candidates fail, `initializeNative` returns false, the orchestrator stays
uninitialized, and every subsequent `processInferenceNative` call returns the
uninitialized sentinel for any input and any adapter behaviour. -/
theorem claim_C2_fallback_on_failure (o : Bridge.AdapterOracles)
    (path input tR oR : List Char) (h : o.tfliteInit path = false) :
    ((Bridge.initializeNative Bridge.initialState o path).success = true ↔
      (o.onnxInit path = true ∧ o.nnapi = true)) ∧
    (o.onnxInit path = true → o.nnapi = true →
      (Bridge.initializeNative Bridge.initialState o path).state.active_backend =
        str "onnx_mobile") ∧
    ((o.onnxInit path = false ∨ o.nnapi = false) →
      (Bridge.initializeNative Bridge.initialState o path).success = false ∧
      (Bridge.initializeNative Bridge.initialState o path).state.is_initialized = false ∧
      Bridge.processInferenceNative
        (Bridge.initializeNative Bridge.initialState o path).state tR oR input =
          str "Error: Service not initialized") := by
  by_cases h1 : o.onnxInit path = true <;> by_cases h2 : o.nnapi = true <;>
    simp [Bridge.initializeNative, Bridge.processInferenceNative,
      Bridge.initialState, h, h1, h2]

/-- Witness for C2: both candidates fail; the resulting state answers every
inference request with the uninitialized sentinel. -/
theorem claim_C2_witness :
    Bridge.processInferenceNative
      (Bridge.initializeNative Bridge.initialState
        { tfliteInit := fun _ => false, onnxInit := fun _ => false, nnapi := false }
        (str "m")).state (str "a") (str "b") (str "hello") =
      str "Error: Service not initialized" :=
  ((claim_C2_fallback_on_failure
    { tfliteInit := fun _ => false, onnxInit := fun _ => false, nnapi := false }
    (str "m") (str "hello") (str "a") (str "b") rfl).2.2 (Or.inl rfl)).2.2

/-- C6: on an initialized orchestrator, `processInferenceNative` returns the
result string of the active adapter verbatim, except that an empty adapter
result is replaced by exactly the sentinel `"Error: No active backend
available"`; and the call always returns a non-empty string (in particular
never a null reference, and, being total, it propagates no exception). -/
theorem claim_C6_route_and_sentinel (s : Bridge.State) (tR oR input : List Char)
    (h : s.is_initialized = true) :
    ((s.active_backend = str "tflite_gpu" ∧ s.tflite_service = true →
      Bridge.processInferenceNative s tR oR input =
        if tR = [] then str "Error: No active backend available" else tR) ∧
     (s.active_backend = str "onnx_mobile" ∧ s.onnx_service = true →
      Bridge.processInferenceNative s tR oR input =
        if oR = [] then str "Error: No active backend available" else oR)) ∧
    Bridge.processInferenceNative s tR oR input ≠ [] := by
  refine ⟨⟨?_, ?_⟩, ?_⟩
  · rintro ⟨hb, hs⟩
    have hsne : ¬ (str "tflite_gpu" = str "onnx_mobile") := by decide
    simp [Bridge.processInferenceNative, h, hb, hs, hsne]
  · rintro ⟨hb, hs⟩
    simp [Bridge.processInferenceNative, h, hb, hs]
  · simp only [Bridge.processInferenceNative, h]
    split_ifs with h1 h2 h3 <;> first | decide | simp_all

/-- Witness for C6: an initialized state actively routing to the TFLite
service, with a non-empty adapter result. -/
theorem claim_C6_witness :
    (((Bridge.State.mk true false true (str "tflite_gpu")).active_backend =
            str "tflite_gpu" ∧
        (Bridge.State.mk true false true (str "tflite_gpu")).tflite_service = true →
      Bridge.processInferenceNative (Bridge.State.mk true false true (str "tflite_gpu"))
          (str "ok") (str "oo") (str "in") =
        if str "ok" = [] then str "Error: No active backend available" else str "ok") ∧
     ((Bridge.State.mk true false true (str "tflite_gpu")).active_backend =
            str "onnx_mobile" ∧
        (Bridge.State.mk true false true (str "tflite_gpu")).onnx_service = true →
      Bridge.processInferenceNative (Bridge.State.mk true false true (str "tflite_gpu"))
          (str "ok") (str "oo") (str "in") =
        if str "oo" = [] then str "Error: No active backend available" else str "oo")) ∧
    Bridge.processInferenceNative (Bridge.State.mk true false true (str "tflite_gpu"))
      (str "ok") (str "oo") (str "in") ≠ [] :=
  claim_C6_route_and_sentinel (Bridge.State.mk true false true (str "tflite_gpu"))
    (str "ok") (str "oo") (str "in") rfl

/-- C9: `cleanupNative` is idempotent — a second call yields the same
observable state as one call; the cleaned state has active backend `"none"`
and a clear initialized flag; cleaning the uninitialized initial state is a
no-op; after a cleanup, every `processInferenceNative` call returns the
uninitialized sentinel instead of touching any service; and the service-level
`cleanup` of the mock adapter is idempotent as well. -/
theorem claim_C9_cleanup_idempotent :
    (∀ s : Bridge.State,
      Bridge.cleanupNative (Bridge.cleanupNative s) = Bridge.cleanupNative s) ∧
    (∀ s : Bridge.State,
      (Bridge.cleanupNative s).active_backend = str "none" ∧
      (Bridge.cleanupNative s).is_initialized = false) ∧
    Bridge.cleanupNative Bridge.initialState = Bridge.initialState ∧
    (∀ (s : Bridge.State) (tR oR input : List Char),
      Bridge.processInferenceNative (Bridge.cleanupNative s) tR oR input =
        str "Error: Service not initialized") ∧
    (∀ t : Mock.State, Mock.cleanup (Mock.cleanup t) = Mock.cleanup t) := by
  refine ⟨?_, ?_, ?_, ?_, ?_⟩
  · intro s
    simp [cleanupNative_eq]
  · intro s
    rw [cleanupNative_eq]
    exact ⟨rfl, rfl⟩
  · rw [cleanupNative_eq]
    rfl
  · intro s tR oR input
    rw [cleanupNative_eq]
    simp [Bridge.processInferenceNative]
  · intro t
    cases t with
    | mk i ml mp ip m g am =>
      by_cases hi : i = true <;> by_cases hip : ip = true <;>
        by_cases hm : m = true <;> by_cases hg : g = true <;>
        simp [Mock.cleanup, hi, hip, hm, hg]
